import Mathlib

/-!
Shallow embedding of the adaptive retrieval engine in
`backend/app/core/vector_db.py` (functions `preprocess_query`,
`format_document_with_metadata`, `get_relevant_context`), together with
theorems settling the behavioural claims about it.

Python strings are modelled as lists of characters (`Str`); the Python
substring test `pat in hay` is `strContains hay pat`; `str.join` is
`pyJoin`; floating-point distances and similarity scores are modelled as
rationals.  The external collaborators (Chroma client/collection, the
embedding provider, the vector-store query) are modelled as an explicit
environment record `Env`; exceptions raised to the caller are modelled by
the `Except` error case carrying the HTTP status.
-/

unseal Rat.sub Rat.add Rat.mul Rat.inv Rat.ofScientific

/-- Model of a Python string: a list of characters. -/
abbrev Str := List Char

/-- Coerce a Lean string literal into the model. -/
def strLit (s : String) : Str := s.data

/-- Model of Python `str.lower()` (ASCII case folding). -/
def lower (s : Str) : Str := s.map Char.toLower

/-- Model of the Python substring test `pat in hay`. -/
def strContains (hay pat : Str) : Bool :=
  (List.range (hay.length + 1)).any fun i => (hay.drop i).take pat.length == pat

/-- Propositional substring relation: `pat` occurs contiguously in `hay`. -/
def SubStr (pat hay : Str) : Prop :=
  ∃ pre post, hay = pre ++ pat ++ post

/-- Model of Python `sep.join(parts)`. -/
def pyJoin (sep : Str) : List Str → Str
  | [] => []
  | [x] => x
  | x :: y :: ys => x ++ sep ++ pyJoin sep (y :: ys)

/-- Model of the Python idiom `any(p in ql for p in patterns)`. -/
def matchesAny (patterns : List Str) (ql : Str) : Bool :=
  patterns.any fun p => strContains ql p

/-- The `timeline_patterns` list of `preprocess_query`. -/
def timeline_patterns : List Str :=
  [strLit "when", strLit "timeline", strLit "how long", strLit "duration",
   strLit "period", strLit "years", strLit "worked", strLit "joined",
   strLit "left", strLit "before", strLit "after", strLit "during",
   strLit "dates", strLit "chronology", strLit "history", strLit "previous",
   strLit "next", strLit "last job", strLit "first job"]

/-- The `company_names` list of `preprocess_query`. -/
def company_names : List Str :=
  [strLit "enchanted rock", strLit "entergy", strLit "u-blox", strLit "ublox",
   strLit "occidental", strLit "oxy", strLit "clutch sports",
   strLit "marine corps", strLit "marines"]

/-- The `career_history_patterns` list of `preprocess_query`. -/
def career_history_patterns : List Str :=
  [strLit "career", strLit "work history", strLit "work experience",
   strLit "job history", strLit "employment", strLit "roles",
   strLit "positions", strLit "companies", strLit "employers", strLit "jobs"]

/-- The `followup_patterns` list of `preprocess_query`. -/
def followup_patterns : List Str :=
  [strLit "what did you do there", strLit "how was it", strLit "tell me more",
   strLit "more details", strLit "what about", strLit "and then",
   strLit "after that", strLit "what next", strLit "what else",
   strLit "responsibilities", strLit "tell me about",
   strLit "what was your role"]

/-- The `technical_patterns` list of `preprocess_query`. -/
def technical_patterns : List Str :=
  [strLit "skills", strLit "technologies", strLit "programming",
   strLit "technical", strLit "software", strLit "expertise",
   strLit "proficiency", strLit "qualification", strLit "stack",
   strLit "tools", strLit "machine learning",
   strLit "artificial intelligence", strLit "ai", strLit "ml",
   strLit "data", strLit "cloud", strLit "aws", strLit "azure",
   strLit "iot", strLit "apis", strLit "microservices",
   strLit "architecture"]

/-- The `basic_info_patterns` list of `preprocess_query`. -/
def basic_info_patterns : List Str :=
  [strLit "who", strLit "name", strLit "about", strLit "introduction",
   strLit "background", strLit "summary", strLit "education",
   strLit "contact", strLit "email", strLit "phone", strLit "location",
   strLit "experience", strLit "overview", strLit "bio", strLit "profile",
   strLit "portfolio"]

/-- Embedding of `preprocess_query` from `vector_db.py`: lower-case the
query, run the `if`/`elif` chain for timeline, company-name and
career-history patterns, then the two later overriding `if` blocks for
follow-up and technical patterns, and finally the basic-info check that
only fires when the type is still `general`.  Returns
`(enhanced_query, query_type)`. -/
def preprocess_query (query : Str) : Str × Str :=
  let query_lower := lower query
  let step1 : Str × Str :=
    if matchesAny timeline_patterns query_lower then
      (strLit "timeline " ++ query ++ strLit " job chronology work history dates",
       strLit "career_history")
    else if matchesAny company_names query_lower then
      let mentioned_companies :=
        company_names.filter fun company => strContains query_lower company
      let company_enhancement := pyJoin (strLit " ") mentioned_companies
      (query ++ strLit " " ++ company_enhancement ++
         strLit " work experience job responsibilities",
       strLit "career_history")
    else if matchesAny career_history_patterns query_lower then
      (query ++ strLit " work history employment timeline job chronology",
       strLit "career_history")
    else (query, strLit "general")
  let step2 : Str × Str :=
    if matchesAny followup_patterns query_lower then
      (query ++ strLit " work experience role position responsibilities companies Enchanted Rock Entergy u-blox Occidental Petroleum Clutch Sports career history",
       strLit "followup_question")
    else step1
  let step3 : Str × Str :=
    if matchesAny technical_patterns query_lower then
      (query ++ strLit " skills technologies expertise proficiency qualifications technical",
       strLit "technical_expertise")
    else step2
  if matchesAny basic_info_patterns query_lower ∧ step3.2 = strLit "general" then
    (query ++ strLit " professional summary background profile overview",
     strLit "basic_info")
  else step3

/-- Spec-comparison definition (written from the amended claim's words, to
be compared with `preprocess_query`): the effective priority among pattern
categories is technical, then follow-up, then timeline, then
organization names, then career-history, then basic-info, then general. -/
def classifyPriority (query : Str) : Str :=
  let ql := lower query
  if matchesAny technical_patterns ql then strLit "technical_expertise"
  else if matchesAny followup_patterns ql then strLit "followup_question"
  else if matchesAny timeline_patterns ql then strLit "career_history"
  else if matchesAny company_names ql then strLit "career_history"
  else if matchesAny career_history_patterns ql then strLit "career_history"
  else if matchesAny basic_info_patterns ql then strLit "basic_info"
  else strLit "general"

/-- Model of Python `dict.get(key, "")` over an association-list model of a
string-keyed metadata mapping. -/
def mget (metadata : List (Str × Str)) (key : Str) : Str :=
  match metadata.find? (fun kv => kv.1 == key) with
  | some kv => kv.2
  | none => []

/-- Model of Python `str.capitalize()`: first character upper-cased, the
rest lower-cased (ASCII). -/
def capitalize (s : Str) : Str :=
  match s with
  | [] => []
  | c :: cs => c.toUpper :: cs.map Char.toLower

/-- The `used_keys` set of `format_document_with_metadata`. -/
def used_keys : List Str :=
  [strLit "source", strLit "section", strLit "job_title", strLit "company",
   strLit "date_range", strLit "technologies"]

/-- The `tech_terms` vocabulary of `format_document_with_metadata`. -/
def tech_terms : List Str :=
  [strLit "Python", strLit "JavaScript", strLit "TypeScript", strLit "React",
   strLit "Angular", strLit "Vue", strLit "Node.js", strLit "SQL",
   strLit "NoSQL", strLit "MySQL", strLit "PostgreSQL", strLit "MongoDB",
   strLit "Redis", strLit "Azure", strLit "AWS", strLit "GCP",
   strLit "Docker", strLit "Kubernetes", strLit "Terraform", strLit "CI/CD",
   strLit "Jenkins", strLit "GitHub Actions", strLit "REST API",
   strLit "GraphQL", strLit "Apache", strLit "Iceberg", strLit "Spark",
   strLit "Kafka", strLit "RabbitMQ", strLit "IoT Hub", strLit "Event Hub",
   strLit "serverless"]

/-- The list `formatted_parts` accumulated by
`format_document_with_metadata`, in source order: the source header, the
job header, the explicit technologies line, the career recap line, the
heuristic technology-scan line, the raw document text, and the remaining
metadata key/value lines. -/
def formatParts (document : Str) (metadata : List (Str × Str)) : List Str :=
  let source := mget metadata (strLit "source")
  let sect := mget metadata (strLit "section")
  let job_title := mget metadata (strLit "job_title")
  let company := mget metadata (strLit "company")
  let date_range := mget metadata (strLit "date_range")
  let technologies := mget metadata (strLit "technologies")
  let sourceParts : List Str :=
    if source.isEmpty then []
    else if sect.isEmpty then [strLit "From " ++ source]
    else [strLit "From " ++ source ++ strLit ": " ++ sect]
  let jobParts : List Str :=
    if !job_title.isEmpty && !company.isEmpty then
      [job_title ++ strLit " at " ++ company ++
        (if date_range.isEmpty then [] else strLit " (" ++ date_range ++ strLit ")")]
    else []
  let techParts : List Str :=
    if technologies.isEmpty then [] else [strLit "Technologies used: " ++ technologies]
  let careerParts : List Str :=
    if (!sect.isEmpty && strContains (lower sect) (strLit "experience"))
        || strContains (lower sect) (strLit "career") then
      let timeline_context :=
        (if job_title.isEmpty then [] else strLit "Position: " ++ job_title ++ strLit ". ") ++
        (if company.isEmpty then [] else strLit "Company: " ++ company ++ strLit ". ") ++
        (if date_range.isEmpty then [] else strLit "Timeline: " ++ date_range ++ strLit ". ")
      if timeline_context.isEmpty then [] else [timeline_context]
    else []
  let scanParts : List Str :=
    if technologies.isEmpty && !document.isEmpty then
      let detected_techs :=
        tech_terms.filter fun term => strContains (lower document) (lower term)
      if detected_techs.isEmpty then []
      else [strLit "Relevant technologies detected: " ++ pyJoin (strLit ", ") detected_techs]
    else []
  let otherParts : List Str :=
    metadata.filterMap fun kv =>
      if !(used_keys.contains kv.1) && !kv.2.isEmpty then
        some (capitalize kv.1 ++ strLit ": " ++ kv.2)
      else none
  sourceParts ++ jobParts ++ techParts ++ careerParts ++ scanParts ++
    (document :: otherParts)

/-- Embedding of `format_document_with_metadata` from `vector_db.py`:
accumulate the parts and join them with a blank line. -/
def format_document_with_metadata (document : Str) (metadata : List (Str × Str)) : Str :=
  pyJoin (strLit "\n\n") (formatParts document metadata)

/-- Derived similarity score of a reported distance (`1 - dist`). -/
def similarity (d : ℚ) : ℚ := 1 - d

/-- The value `similarity_scores[i] if i < len(similarity_scores) else 0`. -/
def scoreAt (sims : List ℚ) (i : Nat) : ℚ := sims.getD i 0

/-- A metadata item reported by the vector store: either a well-formed
mapping (a Python `dict`) or anything else (`malformed`, covering `None`
and non-`dict` values, which fail the `isinstance(meta_item, dict)` test). -/
inductive MetaItem where
  | dict (m : List (Str × Str))
  | malformed
deriving DecidableEq

/-- The metadata mapping the loop body uses for hit `i`: `metas[i]` when it
is in range and is a well-formed mapping, the empty mapping otherwise. -/
def metaAt (metas : List MetaItem) (i : Nat) : List (Str × Str) :=
  match metas.get? i with
  | some (MetaItem.dict m) => m
  | _ => []

/-- The filtering loop of `get_relevant_context`, used once with the
intent-specific threshold and once (in the fallback) with the absolute
floor: for each candidate index, keep `(formatted document, score)` when
the score reaches the threshold. -/
def filterDocs (docs : List Str) (sims : List ℚ) (metas : List MetaItem)
    (thr : ℚ) : List (Str × ℚ) :=
  (List.range docs.length).filterMap fun i =>
    let score := scoreAt sims i
    if thr ≤ score then
      some (format_document_with_metadata (docs.getD i []) (metaAt metas i), score)
    else none

/-- Insert step of a stable insertion sort parameterised by a comparator
(`le a b` means `a` may be placed before `b`). -/
def insertIns (le : α → α → Bool) (a : α) : List α → List α
  | [] => [a]
  | b :: bs => if le a b then a :: b :: bs else b :: insertIns le a bs

/-- Stable comparator sort modelling Python `list.sort(key=..., ...)`. -/
def sortIns (le : α → α → Bool) : List α → List α
  | [] => []
  | a :: rest => insertIns le a (sortIns le rest)

/-- The comparator of `filtered_results.sort(key=lambda x: x[1],
reverse=True)`: descending similarity score. -/
def scoreDescLe (a b : Str × ℚ) : Bool := decide (b.2 ≤ a.2)

/-- Spec-comparison comparator (from the claim's words): ascending
distance, for hits carrying their distance in the second component. -/
def distAscLe (a b : Str × ℚ) : Bool := decide (a.2 ≤ b.2)

/-- Join the surviving formatted documents with the fixed separator. -/
def joinContext (results : List (Str × ℚ)) : Str :=
  pyJoin (strLit "\n\n---\n\n") (results.map Prod.fst)

/-- The intent-specific `k` adjustment at the top of
`get_relevant_context`. -/
def adjustK (query_type : Str) (k : Nat) : Nat :=
  if query_type = strLit "basic_info" then max k 7
  else if query_type = strLit "technical_expertise" then max k 5
  else if query_type = strLit "career_history" then max k 6
  else if query_type = strLit "followup_question" then max k 8
  else max k 4

/-- The wider initial search size: `min(k * 2, 12)`. -/
def initial_k (k : Nat) : Nat := min (k * 2) 12

/-- The intent-specific minimum similarity threshold. -/
def minSimilarity (query_type : Str) : ℚ :=
  if query_type = strLit "basic_info" then 2/10
  else if query_type = strLit "technical_expertise" then 25/100
  else if query_type = strLit "career_history" then 2/10
  else if query_type = strLit "followup_question" then 15/100
  else 15/100

/-- The absolute floor threshold of the fallback pass. -/
def floor_threshold : ℚ := 1/10

/-- Sentinel returned when the collection cannot be obtained. -/
def collectionSentinel : Str :=
  strLit "No relevant context found - collection not available."

/-- Sentinel returned when the store reports zero hits. -/
def noContextSentinel : Str := strLit "No relevant context found."

/-- Sentinel returned on an embedding-dimension mismatch during the query. -/
def dimensionSentinel : Str :=
  strLit "No relevant context found - embedding dimension mismatch."

/-- Sentinel returned on any other query failure. -/
def retrievalErrorSentinel : Str :=
  strLit "No relevant context found due to retrieval error."

/-- Sentinel returned when no candidate passes even the floor threshold. -/
def noSuffSentinel : Str := strLit "No sufficiently relevant context found."

/-- An exception propagated to the caller (`fastapi.HTTPException`). -/
structure HTTPErr where
  status_code : Nat
deriving DecidableEq

/-- The raw result of `collection.query`: parallel per-query lists of
documents, distances and metadata items. -/
structure QueryResult where
  documents : List (List Str)
  distances : List (List ℚ)
  metadatas : List (List MetaItem)

/-- Environment abstracting the external collaborators of
`get_relevant_context`: whether `get_chroma_client()` succeeds, whether
the collection block succeeds, the vector returned by `get_embeddings`
(empty models a falsy result), and the outcome of `collection.query`
given the requested `n_results` (error carries the exception message). -/
structure Env where
  clientOk : Bool
  collectionOk : Bool
  embedding : List ℚ
  queryResult : Nat → Except Str QueryResult

/-- Embedding of `get_relevant_context` from `vector_db.py`.  The outer
`except` re-raises any escaped exception as an `HTTPException(500)`,
modelled by the `Except.error` case; every other path returns a string. -/
def get_relevant_context (env : Env) (query : Str) (k : Nat) : Except HTTPErr Str :=
  let pre := preprocess_query query
  let query_type := pre.2
  let kAdj := adjustK query_type k
  if env.clientOk then
    if env.collectionOk then
      if env.embedding.isEmpty then
        Except.error ⟨500⟩
      else
        match env.queryResult (initial_k kAdj) with
        | Except.error e =>
            if strContains (lower e) (strLit "dimension")
                && strContains (lower e) (strLit "match") then
              Except.ok dimensionSentinel
            else
              Except.ok retrievalErrorSentinel
        | Except.ok res =>
            if res.documents.isEmpty || (res.documents.headD []).isEmpty then
              Except.ok noContextSentinel
            else
              let docs := res.documents.headD []
              let dists := res.distances.headD []
              let metas := res.metadatas.headD []
              let similarity_scores := dists.map similarity
              let min_similarity := minSimilarity query_type
              let filtered_results := filterDocs docs similarity_scores metas min_similarity
              let top_results := (sortIns scoreDescLe filtered_results).take kAdj
              if top_results.isEmpty then
                let fallback_results := filterDocs docs similarity_scores metas floor_threshold
                let fb := (sortIns scoreDescLe fallback_results).take kAdj
                if fb.isEmpty then Except.ok noSuffSentinel
                else Except.ok (joinContext fb)
              else Except.ok (joinContext top_results)
    else Except.ok collectionSentinel
  else Except.error ⟨500⟩

/-- A well-behaved environment whose store returns the given single
candidate set; used to state claims about the post-query pipeline. -/
def mkEnv (docs : List Str) (dists : List ℚ) (metas : List MetaItem) : Env :=
  { clientOk := true
    collectionOk := true
    embedding := [1]
    queryResult := fun _ => Except.ok ⟨[docs], [dists], [metas]⟩ }

/-- The five intent values `preprocess_query` can return. -/
def intents : List Str :=
  [strLit "general", strLit "basic_info", strLit "technical_expertise",
   strLit "career_history", strLit "followup_question"]

/-- Spec-comparison table (from the claim's words): the intent-specific
floor for `k`. -/
def kFloorSpec (query_type : Str) : Nat :=
  if query_type = strLit "basic_info" then 7
  else if query_type = strLit "technical_expertise" then 5
  else if query_type = strLit "career_history" then 6
  else if query_type = strLit "followup_question" then 8
  else 4

/-- Spec-comparison table (from the claim's words): the intent-specific
minimum similarity. -/
def minSimSpec (query_type : Str) : ℚ :=
  if query_type = strLit "technical_expertise" then 25/100
  else if query_type = strLit "basic_info" ∨ query_type = strLit "career_history" then 2/10
  else 15/100

/-- Environment in which the embedding provider yields a falsy (empty)
vector while everything else succeeds. -/
def envEmbedFail : Env :=
  { clientOk := true
    collectionOk := true
    embedding := []
    queryResult := fun _ => Except.ok ⟨[], [], []⟩ }

/-- Environment in which the store query raises a dimension-mismatch
error (its message mentions both `dimension` and `match`, as Chroma's
does). -/
def envDimMismatch : Env :=
  { clientOk := true
    collectionOk := true
    embedding := [1]
    queryResult := fun _ =>
      Except.error (strLit "Embedding dimension 1536 does not match collection dimensionality 3072") }

/-- Environment in which the store query fails with a message unrelated
to dimensions. -/
def envOtherFailure : Env :=
  { clientOk := true
    collectionOk := true
    embedding := [1]
    queryResult := fun _ => Except.error (strLit "connection reset by peer") }

/-- Environment returning one strong hit (distance 0.5) whose metadata
item is not a well-formed mapping. -/
def envMalformedMeta : Env :=
  mkEnv [strLit "Fact one."] [1/2] [MetaItem.malformed]

theorem substr_self (x : Str) : SubStr x x :=
  ⟨[], [], by simp⟩

theorem substr_append_left (a : Str) {x m : Str} (h : SubStr x m) :
    SubStr x (a ++ m) := by
  obtain ⟨p, s, rfl⟩ := h
  exact ⟨a ++ p, s, by simp⟩

theorem substr_append_right (b : Str) {x m : Str} (h : SubStr x m) :
    SubStr x (m ++ b) := by
  obtain ⟨p, s, rfl⟩ := h
  exact ⟨p, s ++ b, by simp⟩

theorem substr_pyJoin_of_mem (sep : Str) {x : Str} :
    ∀ {l : List Str}, x ∈ l → SubStr x (pyJoin sep l)
  | [], h => absurd h (List.not_mem_nil x)
  | [y], h => by
      rcases List.mem_singleton.mp h with rfl
      exact substr_self x
  | y :: z :: zs, h => by
      rcases List.mem_cons.mp h with rfl | h
      · exact ⟨[], sep ++ pyJoin sep (z :: zs), by simp [pyJoin]⟩
      · have ih := substr_pyJoin_of_mem sep h
        have : SubStr x ((y ++ sep) ++ pyJoin sep (z :: zs)) :=
          substr_append_left (y ++ sep) ih
        simpa [pyJoin, List.append_assoc] using this

theorem mem_formatParts (document : Str) (metadata : List (Str × Str)) :
    document ∈ formatParts document metadata := by
  unfold formatParts
  simp

theorem filterDocs_eq_nil {docs : List Str} {sims : List ℚ}
    {metas : List MetaItem} {thr : ℚ}
    (h : ∀ i < docs.length, scoreAt sims i < thr) :
    filterDocs docs sims metas thr = [] := by
  unfold filterDocs
  rw [List.filterMap_eq_nil_iff]
  intro i hi
  rw [List.mem_range] at hi
  simp only
  rw [if_neg (not_le.mpr (h i hi))]

theorem floor_le_minSimilarity (query_type : Str) :
    floor_threshold ≤ minSimilarity query_type := by
  unfold floor_threshold minSimilarity
  split
  · norm_num
  · split
    · norm_num
    · split
      · norm_num
      · split <;> norm_num

theorem initial_k_eq (n : Nat) : initial_k n = min (2 * n) 12 := by
  unfold initial_k
  rw [Nat.mul_comm]

theorem insertIns_map (f : α → β) (le : β → β → Bool) (le' : α → α → Bool)
    (hc : ∀ a b, le (f a) (f b) = le' a b) (a : α) :
    ∀ l : List α, insertIns le (f a) (l.map f) = (insertIns le' a l).map f
  | [] => rfl
  | b :: bs => by
      simp only [List.map_cons, insertIns, hc a b]
      cases h : le' a b with
      | true => simp
      | false => simp [insertIns_map f le le' hc a bs]

theorem sortIns_map (f : α → β) (le : β → β → Bool) (le' : α → α → Bool)
    (hc : ∀ a b, le (f a) (f b) = le' a b) :
    ∀ l : List α, sortIns le (l.map f) = (sortIns le' l).map f
  | [] => rfl
  | a :: rest => by
      simp only [List.map_cons, sortIns, sortIns_map f le le' hc rest]
      exact insertIns_map f le le' hc a (sortIns le' rest)

/-- C7: the similarity score derived from a reported distance `d` is
exactly `1 - d`; the map is strictly order-reversing; and sorting hits by
similarity score descending (the program's comparator `scoreDescLe`)
produces exactly the same order as sorting the same hits by distance
ascending. -/
theorem C7_similarity_order_reversal :
    (∀ d : ℚ, similarity d = 1 - d) ∧
    (∀ d₁ d₂ : ℚ, d₁ < d₂ ↔ similarity d₂ < similarity d₁) ∧
    (∀ hits : List (Str × ℚ),
       sortIns scoreDescLe (hits.map fun h => (h.1, similarity h.2)) =
         (sortIns distAscLe hits).map fun h => (h.1, similarity h.2)) := by
  refine ⟨fun d => rfl, ?_, ?_⟩
  · intro d₁ d₂
    unfold similarity
    constructor <;> intro h <;> linarith
  · intro hits
    refine sortIns_map _ scoreDescLe distAscLe ?_ hits
    intro a b
    unfold scoreDescLe distAscLe similarity
    simp only [decide_eq_decide]
    constructor <;> intro h <;> linarith

/-- C10: the output of `format_document_with_metadata` always contains
the raw document text verbatim as a contiguous substring, and the context
string assembled by joining surviving results contains each included
formatted document. -/
theorem C10_output_contains_document :
    (∀ (document : Str) (metadata : List (Str × Str)),
       SubStr document (format_document_with_metadata document metadata)) ∧
    (∀ (results : List (Str × ℚ)) (p : Str × ℚ), p ∈ results →
       SubStr p.1 (joinContext results)) := by
  constructor
  · intro document metadata
    exact substr_pyJoin_of_mem _ (mem_formatParts document metadata)
  · intro results p hp
    exact substr_pyJoin_of_mem _ (List.mem_map_of_mem Prod.fst hp)

/-- C10 witness: instantiating the theorem on a one-element result list. -/
theorem C10_output_contains_document_witness :
    SubStr (strLit "doc A") (joinContext [(strLit "doc A", 1/2)]) :=
  C10_output_contains_document.2 [(strLit "doc A", 1/2)] (strLit "doc A", 1/2)
    (by simp)

/-- C3 counterexample: with empty metadata but a document mentioning a
term of the fixed technology vocabulary, the formatter prepends a
"Relevant technologies detected" line, so the output is not the document
unchanged — refuting the claim's "including for documents whose text
happens to contain terms from the fixed technology vocabulary". -/
theorem C3_counterexample :
    format_document_with_metadata (strLit "I use Python") [] ≠
      strLit "I use Python" ∧
    format_document_with_metadata (strLit "I use Python") [] =
      strLit "Relevant technologies detected: Python\n\nI use Python" := by
  constructor
  · decide
  · rfl

/-- C3 (amended): with an empty metadata mapping the formatter returns the
document text unchanged, provided no term of the technology vocabulary
occurs (case-insensitively) in the document. -/
theorem C3_format_empty_metadata (document : Str)
    (h : ∀ term ∈ tech_terms,
       strContains (lower document) (lower term) = false) :
    format_document_with_metadata document [] = document := by
  have hdet :
      tech_terms.filter (fun term => strContains (lower document) (lower term)) = [] := by
    rw [List.filter_eq_nil_iff]
    intro a ha
    simp [h a ha]
  have h1 : strContains (lower ([] : Str)) (strLit "experience") = false := by decide
  have h2 : strContains (lower ([] : Str)) (strLit "career") = false := by decide
  unfold format_document_with_metadata formatParts mget
  simp [hdet, h1, h2, pyJoin]

/-- C3 witness: the amended theorem applied to a technology-free document. -/
theorem C3_format_empty_metadata_witness :
    format_document_with_metadata (strLit "hello world") [] = strLit "hello world" :=
  C3_format_empty_metadata (strLit "hello world") (by decide)

/-- C6 counterexample: a single hit with well-above-threshold score and a
malformed metadata item is not skipped — it is formatted with empty
metadata and returned as the context, instead of the sentinel that
skipping every hit would produce. -/
theorem C6_counterexample :
    get_relevant_context envMalformedMeta (strLit "zzz") 5 =
      Except.ok (strLit "Fact one.") ∧
    (strLit "Fact one." : Str) ≠ noSuffSentinel := by
  constructor
  · rfl
  · decide

/-- C6 (amended): a hit whose metadata item is not a well-formed mapping
is still processed — it appears in the filtered results formatted with an
empty metadata mapping — and processing of the other hits continues (the
filtering pass is total and never aborts). -/
theorem C6_malformed_metadata_processed (docs : List Str) (sims : List ℚ)
    (metas : List MetaItem) (thr : ℚ) (i : Nat)
    (hmeta : metas.get? i = some MetaItem.malformed)
    (hi : i < docs.length)
    (hs : thr ≤ scoreAt sims i) :
    (format_document_with_metadata (docs.getD i []) [], scoreAt sims i) ∈
      filterDocs docs sims metas thr := by
  unfold filterDocs
  rw [List.mem_filterMap]
  refine ⟨i, List.mem_range.mpr hi, ?_⟩
  simp only [metaAt, hmeta]
  rw [if_pos hs]

/-- C6 witness: the amended theorem at a concrete malformed-metadata hit. -/
theorem C6_malformed_metadata_processed_witness :
    (format_document_with_metadata ([strLit "d"].getD 0 []) [],
      scoreAt [(1/2 : ℚ)] 0) ∈
      filterDocs [strLit "d"] [(1/2 : ℚ)] [MetaItem.malformed] (15/100) :=
  C6_malformed_metadata_processed [strLit "d"] [(1/2 : ℚ)] [MetaItem.malformed]
    (15/100) 0 rfl (by decide) (by decide)

/-- C2 counterexample: the query "when skills" matches both a timeline
pattern ("when") and a technical pattern ("skills"), yet is classified
`technical_expertise`, not the claimed higher-priority `career_history` —
the technical check runs later and overrides. -/
theorem C2_counterexample :
    matchesAny timeline_patterns (lower (strLit "when skills")) = true ∧
    matchesAny technical_patterns (lower (strLit "when skills")) = true ∧
    (preprocess_query (strLit "when skills")).2 = strLit "technical_expertise" ∧
    (preprocess_query (strLit "when skills")).2 ≠ strLit "career_history" := by
  decide

/-- C2 (amended): the intent returned by `preprocess_query` follows the
fixed priority order technical patterns, then follow-up patterns, then
timeline patterns, then organization-name mentions, then career-history
patterns, then basic-info patterns, then general — the later `if` blocks
of the source override the earlier `elif` chain, and basic-info applies
only when no other category matched. -/
theorem C2_effective_priority (query : Str) :
    (preprocess_query query).2 = classifyPriority query := by
  have hne1 : ¬(strLit "career_history" = strLit "general") := by decide
  have hne2 : ¬(strLit "followup_question" = strLit "general") := by decide
  have hne3 : ¬(strLit "technical_expertise" = strLit "general") := by decide
  unfold preprocess_query classifyPriority
  cases h1 : matchesAny timeline_patterns (lower query) <;>
  cases h2 : matchesAny company_names (lower query) <;>
  cases h3 : matchesAny career_history_patterns (lower query) <;>
  cases h4 : matchesAny followup_patterns (lower query) <;>
  cases h5 : matchesAny technical_patterns (lower query) <;>
  cases h6 : matchesAny basic_info_patterns (lower query) <;>
    simp [h1, h2, h3, h4, h5, h6, hne1, hne2, hne3]

/-- C9 counterexample: "tell me about entergy" contains the recognized
organization name "entergy" but is classified `followup_question`
(the follow-up check overrides the company branch), refuting the claim
that every such query gets intent `career_history`. -/
theorem C9_counterexample :
    strLit "entergy" ∈ company_names ∧
    strContains (lower (strLit "tell me about entergy")) (strLit "entergy") = true ∧
    (preprocess_query (strLit "tell me about entergy")).2 = strLit "followup_question" ∧
    (preprocess_query (strLit "tell me about entergy")).2 ≠ strLit "career_history" := by
  decide

/-- C9 (amended): for a query whose lower-cased text contains a recognized
organization name and which matches no timeline, follow-up or technical
pattern, `preprocess_query` returns intent `career_history` and an
enhanced query containing that organization's name. -/
theorem C9_company_query (query org : Str)
    (horg : org ∈ company_names)
    (hc : strContains (lower query) org = true)
    (ht : matchesAny timeline_patterns (lower query) = false)
    (hf : matchesAny followup_patterns (lower query) = false)
    (htech : matchesAny technical_patterns (lower query) = false) :
    (preprocess_query query).2 = strLit "career_history" ∧
    SubStr org (preprocess_query query).1 := by
  have hcomp : matchesAny company_names (lower query) = true := by
    unfold matchesAny
    exact List.any_eq_true.mpr ⟨org, horg, hc⟩
  have hne1 : ¬(strLit "career_history" = strLit "general") := by decide
  have hmem : org ∈ company_names.filter fun company => strContains (lower query) company :=
    List.mem_filter.mpr ⟨horg, hc⟩
  unfold preprocess_query
  simp only [ht, hcomp, hf, htech, Bool.false_eq_true, if_false, if_true]
  simp only [hne1, and_false, if_false]
  refine ⟨?_, ?_⟩
  · trivial
  · exact substr_append_right _
      (substr_append_left _ (substr_pyJoin_of_mem (strLit " ") hmem))

/-- C9 witness: the amended theorem at the query "entergy please". -/
theorem C9_company_query_witness :
    (preprocess_query (strLit "entergy please")).2 = strLit "career_history" ∧
    SubStr (strLit "entergy") (preprocess_query (strLit "entergy please")).1 :=
  C9_company_query (strLit "entergy please") (strLit "entergy")
    (by decide) (by decide) (by decide) (by decide) (by decide)

/-- C1 counterexample: when the embedding provider yields an empty (falsy)
vector, `get_relevant_context` does not return a retrieval-error string —
the `ValueError` escapes the inner handler and the outer handler re-raises
an `HTTPException(500)` to the caller. -/
theorem C1_counterexample :
    get_relevant_context envEmbedFail (strLit "hello") 5 =
      Except.error ⟨500⟩ := by
  rfl

/-- C1 (amended): an empty embedding result makes `get_relevant_context`
raise `HTTPException(500)` to its caller — this one recoverable failure is
not converted to a string — whereas a collection-acquisition failure is
still converted to the "collection not available" sentinel and a failure
raised during the vector-store query step is still converted to a sentinel
string at the engine boundary. -/
theorem C1_embedding_failure (env : Env) (query : Str) (k : Nat)
    (hcl : env.clientOk = true) :
    (env.collectionOk = true → env.embedding = [] →
       get_relevant_context env query k = Except.error ⟨500⟩) ∧
    (env.collectionOk = false →
       get_relevant_context env query k = Except.ok collectionSentinel) ∧
    (∀ e, env.collectionOk = true → env.embedding ≠ [] →
       env.queryResult (initial_k (adjustK (preprocess_query query).2 k)) =
         Except.error e →
       ∃ s, get_relevant_context env query k = Except.ok s) := by
  refine ⟨?_, ?_, ?_⟩
  · intro hco he
    unfold get_relevant_context
    simp [hcl, hco, he]
  · intro hco
    unfold get_relevant_context
    simp [hcl, hco]
  · intro e hco hne hq
    have hie : env.embedding.isEmpty = false := List.isEmpty_eq_false.mpr hne
    unfold get_relevant_context
    simp only [hcl, hie, hco, if_true, Bool.false_eq_true, if_false, hq]
    split <;> exact ⟨_, rfl⟩

/-- C1 witness: the amended theorem's embedding-failure branch at a
concrete environment. -/
theorem C1_embedding_failure_witness :
    get_relevant_context envEmbedFail (strLit "zzz") 5 = Except.error ⟨500⟩ :=
  (C1_embedding_failure envEmbedFail (strLit "zzz") 5 rfl).1 rfl rfl

/-- C8: a failing store query whose error message mentions `dimension`
and `match` (lower-cased) yields the dedicated dimension-mismatch
sentinel, any other failing query yields the generic retrieval-error
sentinel — both returned, never raised — and the sentinels are pairwise
distinct literals, distinguishable from the other no-context strings. -/
theorem C8_query_failure_sentinels (env : Env) (query : Str) (k : Nat) (e : Str)
    (hcl : env.clientOk = true) (hco : env.collectionOk = true)
    (hne : env.embedding ≠ [])
    (hq : env.queryResult (initial_k (adjustK (preprocess_query query).2 k)) =
       Except.error e) :
    get_relevant_context env query k =
      Except.ok
        (if strContains (lower e) (strLit "dimension")
            && strContains (lower e) (strLit "match")
         then dimensionSentinel else retrievalErrorSentinel) ∧
    dimensionSentinel ≠ retrievalErrorSentinel ∧
    dimensionSentinel ≠ noContextSentinel ∧
    dimensionSentinel ≠ noSuffSentinel ∧
    dimensionSentinel ≠ collectionSentinel ∧
    retrievalErrorSentinel ≠ noContextSentinel ∧
    retrievalErrorSentinel ≠ noSuffSentinel ∧
    retrievalErrorSentinel ≠ collectionSentinel := by
  refine ⟨?_, by decide, by decide, by decide, by decide, by decide, by decide, by decide⟩
  have hie : env.embedding.isEmpty = false := List.isEmpty_eq_false.mpr hne
  unfold get_relevant_context
  simp only [hcl, hie, hco, if_true, Bool.false_eq_true, if_false, hq]
  split <;> rfl

/-- C8 witness: a dimension-mismatch message produces the dedicated
sentinel. -/
theorem C8_query_failure_sentinels_witness :
    get_relevant_context envDimMismatch (strLit "zzz") 5 =
      Except.ok
        (if strContains
              (lower (strLit "Embedding dimension 1536 does not match collection dimensionality 3072"))
              (strLit "dimension")
            && strContains
              (lower (strLit "Embedding dimension 1536 does not match collection dimensionality 3072"))
              (strLit "match")
         then dimensionSentinel else retrievalErrorSentinel) :=
  (C8_query_failure_sentinels envDimMismatch (strLit "zzz") 5
    (strLit "Embedding dimension 1536 does not match collection dimensionality 3072")
    rfl rfl (by simp [envDimMismatch]) rfl).1

/-- C4: on a candidate set in which no hit reaches the intent-specific
threshold, `get_relevant_context` re-filters the same candidates against
the absolute floor 0.10, sorts by score descending and keeps at most the
adjusted `k`; and when every candidate is below the floor it returns the
"No sufficiently relevant context found." sentinel, never a partially
filtered list. -/
theorem C4_floor_fallback (query : Str) (k : Nat) (docs : List Str)
    (dists : List ℚ) (metas : List MetaItem)
    (hdocs : docs ≠ [])
    (hmain : ∀ i < docs.length,
       scoreAt (dists.map similarity) i <
         minSimilarity (preprocess_query query).2) :
    (get_relevant_context (mkEnv docs dists metas) query k =
       (let fb := (sortIns scoreDescLe
            (filterDocs docs (dists.map similarity) metas floor_threshold)).take
            (adjustK (preprocess_query query).2 k)
        if fb.isEmpty then Except.ok noSuffSentinel
        else Except.ok (joinContext fb))) ∧
    ((∀ i < docs.length, scoreAt (dists.map similarity) i < floor_threshold) →
       get_relevant_context (mkEnv docs dists metas) query k =
         Except.ok noSuffSentinel) := by
  have hfil : filterDocs docs (dists.map similarity) metas
      (minSimilarity (preprocess_query query).2) = [] := filterDocs_eq_nil hmain
  have hde : docs.isEmpty = false := List.isEmpty_eq_false.mpr hdocs
  have main :
      get_relevant_context (mkEnv docs dists metas) query k =
        (let fb := (sortIns scoreDescLe
             (filterDocs docs (dists.map similarity) metas floor_threshold)).take
             (adjustK (preprocess_query query).2 k)
         if fb.isEmpty then Except.ok noSuffSentinel
         else Except.ok (joinContext fb)) := by
    unfold get_relevant_context mkEnv
    simp only [List.isEmpty_cons, List.headD_cons, hde, hfil, sortIns,
      List.take_nil, List.isEmpty_nil, Bool.false_eq_true, if_false, if_true,
      Bool.or_false, Bool.false_or]
  refine ⟨main, fun hfloor => ?_⟩
  rw [main]
  have hfb : filterDocs docs (dists.map similarity) metas floor_threshold = [] :=
    filterDocs_eq_nil hfloor
  simp [hfb, sortIns]

/-- C4 witness: one candidate at distance 0.95 (similarity 0.05, below
the 0.10 floor) yields the sentinel. -/
theorem C4_floor_fallback_witness :
    get_relevant_context (mkEnv [strLit "d"] [(19/20 : ℚ)] []) (strLit "zzz") 5 =
      Except.ok noSuffSentinel :=
  (C4_floor_fallback (strLit "zzz") 5 [strLit "d"] [(19/20 : ℚ)] []
    (by decide) (by decide)).2 (by decide)

/-- C5: for every intent, the retrieval raises the desired `k` to the
intent-specific floor (basic_info 7, technical_expertise 5,
career_history 6, followup_question 8, general 4), searches with
`initialK = min(2 * adjustedK, 12)`, and filters with the intent-specific
minimum similarity (technical_expertise 0.25, basic_info and
career_history 0.20, general and followup_question 0.15), as recorded in
the spec-side tables `kFloorSpec` and `minSimSpec`. -/
theorem C5_intent_parameters (query_type : Str) (k : Nat)
    (hq : query_type ∈ intents) :
    adjustK query_type k = max k (kFloorSpec query_type) ∧
    initial_k (adjustK query_type k) = min (2 * adjustK query_type k) 12 ∧
    minSimilarity query_type = minSimSpec query_type := by
  fin_cases hq
  · refine ⟨?_, initial_k_eq _, by decide⟩
    have h : kFloorSpec (strLit "general") = 4 := by decide
    rw [h]
    unfold adjustK
    rw [if_neg (by decide), if_neg (by decide), if_neg (by decide),
      if_neg (by decide)]
  · refine ⟨?_, initial_k_eq _, by decide⟩
    have h : kFloorSpec (strLit "basic_info") = 7 := by decide
    rw [h]
    unfold adjustK
    rw [if_pos (by decide)]
  · refine ⟨?_, initial_k_eq _, by decide⟩
    have h : kFloorSpec (strLit "technical_expertise") = 5 := by decide
    rw [h]
    unfold adjustK
    rw [if_neg (by decide), if_pos (by decide)]
  · refine ⟨?_, initial_k_eq _, by decide⟩
    have h : kFloorSpec (strLit "career_history") = 6 := by decide
    rw [h]
    unfold adjustK
    rw [if_neg (by decide), if_neg (by decide), if_pos (by decide)]
  · refine ⟨?_, initial_k_eq _, by decide⟩
    have h : kFloorSpec (strLit "followup_question") = 8 := by decide
    rw [h]
    unfold adjustK
    rw [if_neg (by decide), if_neg (by decide), if_neg (by decide),
      if_pos (by decide)]

/-- C5 witness: the parameter table at intent `technical_expertise` with
desired k = 3. -/
theorem C5_intent_parameters_witness :
    adjustK (strLit "technical_expertise") 3 =
      max 3 (kFloorSpec (strLit "technical_expertise")) ∧
    initial_k (adjustK (strLit "technical_expertise") 3) =
      min (2 * adjustK (strLit "technical_expertise") 3) 12 ∧
    minSimilarity (strLit "technical_expertise") =
      minSimSpec (strLit "technical_expertise") :=
  C5_intent_parameters (strLit "technical_expertise") 3 (by decide)
